import Mathlib

/-
Verification of the camera controller, mouse movement tracker, grid pass and
instanced render passes of the sphere-bounds-experiment repository.

The Rust source works with 32-bit floats (glam Vec3 / Quat / IVec2).  The
embedding uses exact rationals for the field arithmetic and treats the
transcendental f32 operations (sin, cos, sqrt and the constant PI) as an
abstract bundle of functions, so every theorem below holds for an arbitrary
interpretation of those operations unless it explicitly assumes a property
such as sin 0 = 0.  Machine integer casts that occur in the source
(usize as u32, usize as u16) are modelled with explicit reductions modulo
2^32 and 2^16.
-/

namespace Sbx

/-- Abstract interpretation of the f32 transcendental operations used by the
source (glam uses f32 sin, cos and sqrt; camera_controller.rs uses
std::f32::consts::PI). -/
structure FloatOps where
  sin : ℚ → ℚ
  cos : ℚ → ℚ
  sqrt : ℚ → ℚ
  pi : ℚ

/-- glam Vec3, with exact rational components in place of f32. -/
@[ext]
structure Vec3 where
  x : ℚ
  y : ℚ
  z : ℚ
deriving DecidableEq

instance : Add Vec3 where
  add a b := ⟨a.x + b.x, a.y + b.y, a.z + b.z⟩

instance : Sub Vec3 where
  sub a b := ⟨a.x - b.x, a.y - b.y, a.z - b.z⟩

instance : Neg Vec3 where
  neg a := ⟨-a.x, -a.y, -a.z⟩

/-- glam Vec3 multiplication by an f32 scalar (componentwise). -/
def Vec3.mul (v : Vec3) (k : ℚ) : Vec3 :=
  ⟨v.x * k, v.y * k, v.z * k⟩

/-- glam Vec3 division by an f32 scalar (componentwise). -/
def Vec3.div (v : Vec3) (k : ℚ) : Vec3 :=
  ⟨v.x / k, v.y / k, v.z / k⟩

/-- glam Vec3::dot. -/
def Vec3.dot (a b : Vec3) : ℚ :=
  a.x * b.x + a.y * b.y + a.z * b.z

/-- glam Vec3::cross. -/
def Vec3.cross (a b : Vec3) : Vec3 :=
  ⟨a.y * b.z - a.z * b.y, a.z * b.x - a.x * b.z, a.x * b.y - a.y * b.x⟩

/-- glam Vec3::length_squared = dot self self. -/
def Vec3.length_squared (v : Vec3) : ℚ :=
  v.dot v

/-- glam Vec3::length = sqrt (length_squared), with the abstract sqrt. -/
def Vec3.length (sqrt : ℚ → ℚ) (v : Vec3) : ℚ :=
  sqrt v.length_squared

/-- glam Vec3::normalize = self * recip (length). -/
def Vec3.normalize (sqrt : ℚ → ℚ) (v : Vec3) : Vec3 :=
  v.mul (1 / v.length sqrt)

/-- glam Quat (x, y, z imaginary parts, w real part). -/
@[ext]
structure Quat where
  x : ℚ
  y : ℚ
  z : ℚ
  w : ℚ
deriving DecidableEq

/-- glam Quat::mul (Hamilton product, glam component order). -/
def Quat.mul (a b : Quat) : Quat :=
  ⟨a.w * b.x + a.x * b.w + a.y * b.z - a.z * b.y,
   a.w * b.y - a.x * b.z + a.y * b.w + a.z * b.x,
   a.w * b.z + a.x * b.y - a.y * b.x + a.z * b.w,
   a.w * b.w - a.x * b.x - a.y * b.y - a.z * b.z⟩

/-- glam Quat::from_axis_angle: (axis * sin (angle / 2), cos (angle / 2)). -/
def Quat.from_axis_angle (M : FloatOps) (axis : Vec3) (angle : ℚ) : Quat :=
  ⟨axis.x * M.sin (angle / 2), axis.y * M.sin (angle / 2), axis.z * M.sin (angle / 2),
   M.cos (angle / 2)⟩

/-- glam Quat::mul_vec3: with b the imaginary part,
rhs * (w * w - dot b b) + b * (dot rhs b * 2) + cross b rhs * (w * 2). -/
def Quat.mul_vec3 (q : Quat) (rhs : Vec3) : Vec3 :=
  let b : Vec3 := ⟨q.x, q.y, q.z⟩
  let b2 := b.dot b
  (rhs.mul (q.w * q.w - b2)) + (b.mul (rhs.dot b * 2)) + ((b.cross rhs).mul (q.w * 2))

/-- glam IVec2 (i32 components, modelled as unbounded integers). -/
@[ext]
structure IVec2 where
  x : ℤ
  y : ℤ
deriving DecidableEq

instance : Add IVec2 where
  add a b := ⟨a.x + b.x, a.y + b.y⟩

/-- camera_controller.rs CameraTransform. -/
@[ext]
structure CameraTransform where
  position : Vec3
  orientation : Quat
  orbit_point : Vec3
deriving DecidableEq

/-- CameraTransform::up. -/
def CameraTransform.up (t : CameraTransform) : Vec3 :=
  t.orientation.mul_vec3 ⟨0, 1, 0⟩

/-- CameraTransform::right. -/
def CameraTransform.right (t : CameraTransform) : Vec3 :=
  t.orientation.mul_vec3 ⟨1, 0, 0⟩

/-- mouse_movement_tracker.rs MouseMovementTracker: the accumulated movement
and the pointer_lock flag (the event-subscription handle carries no data
relevant to the verified properties; its cancellation is modelled in the
teardown event list below). -/
structure MouseMovementTracker where
  movement : IVec2
  pointer_lock : Bool

/-- MouseMovementTracker::pointer_locked: requests pointer lock and starts
with zero accumulated movement. -/
def MouseMovementTracker.pointer_locked : MouseMovementTracker :=
  { movement := ⟨0, 0⟩, pointer_lock := true }

/-- The pointer-move handler installed by MouseMovementTracker::pointer_locked
(lines 85-95): movement += (movement_x, movement_y). -/
def MouseMovementTracker.on_pointer_move_locked (t : MouseMovementTracker) (d : IVec2) :
    MouseMovementTracker :=
  { t with movement := t.movement + d }

/-- Events emitted by the Drop glue of the tracker and the sessions. -/
inductive TeardownEvent where
  | exit_pointer_lock
  | abort_subscription
deriving DecidableEq

/-- Drop for MouseMovementTracker (lines 125-133): abort the subscription,
then exit pointer lock when it was acquired. -/
def MouseMovementTracker.drop_events (t : MouseMovementTracker) : List TeardownEvent :=
  TeardownEvent.abort_subscription ::
    (if t.pointer_lock then [TeardownEvent.exit_pointer_lock] else [])

/-- Number of pointer-capture releases in a teardown event list. -/
def release_count (es : List TeardownEvent) : ℕ :=
  (es.filter fun e => e == TeardownEvent.exit_pointer_lock).length

/-- camera_controller.rs OrbitSession. -/
structure OrbitSession where
  tracker : MouseMovementTracker
  orbit_point : Vec3
  initial_orientation : Quat
  initial_relative_position : Vec3

/-- OrbitSession::init (lines 199-213). -/
def OrbitSession.init (initial_transform : CameraTransform) : OrbitSession :=
  { tracker := MouseMovementTracker.pointer_locked,
    orbit_point := initial_transform.orbit_point,
    initial_orientation := initial_transform.orientation,
    initial_relative_position := initial_transform.position - initial_transform.orbit_point }

/-- OrbitSession::current_transform (lines 215-235). -/
def OrbitSession.current_transform (M : FloatOps) (s : OrbitSession) : CameraTransform :=
  let mouse_movement := s.tracker.movement
  let pan_angle : ℚ := -(mouse_movement.x : ℚ) / 400 * M.pi
  let pan := Quat.from_axis_angle M ⟨0, 1, 0⟩ pan_angle
  let panned_orientation := pan.mul s.initial_orientation
  let right := panned_orientation.mul_vec3 ⟨1, 0, 0⟩
  let tilt_angle : ℚ := -(mouse_movement.y : ℚ) / 400 * M.pi
  let tilt := Quat.from_axis_angle M right tilt_angle
  let rot := tilt.mul pan
  let relative_translation := rot.mul_vec3 s.initial_relative_position
  { position := s.orbit_point + relative_translation,
    orientation := rot.mul s.initial_orientation,
    orbit_point := s.orbit_point }

/-- Drop for OrbitSession (lines 238-242) exits pointer lock, after which the
tracker field is itself dropped (Rust drops the fields of a value after
running its own Drop impl). -/
def OrbitSession.drop_events (s : OrbitSession) : List TeardownEvent :=
  TeardownEvent.exit_pointer_lock :: s.tracker.drop_events

/-- A pointer-move event delivered to an active orbit session. -/
def OrbitSession.on_pointer_move (s : OrbitSession) (d : IVec2) : OrbitSession :=
  { s with tracker := s.tracker.on_pointer_move_locked d }

/-- The orbit session obtained from the initial transform after a list of
pointer-move events. -/
def orbit_session_after (t : CameraTransform) (moves : List IVec2) : OrbitSession :=
  moves.foldl OrbitSession.on_pointer_move (OrbitSession.init t)

/-- camera_controller.rs SidleSession. -/
structure SidleSession where
  tracker : MouseMovementTracker
  orientation : Quat
  initial_position : Vec3
  initial_orbit_point : Vec3
  up : Vec3
  right : Vec3

/-- SidleSession::init (lines 253-263). -/
def SidleSession.init (initial_transform : CameraTransform) : SidleSession :=
  { tracker := MouseMovementTracker.pointer_locked,
    orientation := initial_transform.orientation,
    initial_position := initial_transform.position,
    initial_orbit_point := initial_transform.orbit_point,
    up := initial_transform.up,
    right := initial_transform.right }

/-- SidleSession::current_transform (lines 265-277). -/
def SidleSession.current_transform (s : SidleSession) : CameraTransform :=
  let mouse_movement := s.tracker.movement
  let translation :=
    (s.up.mul (mouse_movement.y : ℚ)).div 80 + (s.right.mul (-(mouse_movement.x : ℚ))).div 80
  { position := s.initial_position + translation,
    orientation := s.orientation,
    orbit_point := s.initial_orbit_point + translation }

/-- SidleSession has no Drop impl of its own; dropping it drops the tracker. -/
def SidleSession.drop_events (s : SidleSession) : List TeardownEvent :=
  s.tracker.drop_events

/-- A pointer-move event delivered to an active sidle session. -/
def SidleSession.on_pointer_move (s : SidleSession) (d : IVec2) : SidleSession :=
  { s with tracker := s.tracker.on_pointer_move_locked d }

/-- The sidle session obtained from the initial transform after a list of
pointer-move events. -/
def sidle_session_after (t : CameraTransform) (moves : List IVec2) : SidleSession :=
  moves.foldl SidleSession.on_pointer_move (SidleSession.init t)

/-- camera_controller.rs MouseTrackingSession. -/
inductive MouseTrackingSession where
  | orbit (s : OrbitSession)
  | sidle (s : SidleSession)

/-- MouseTrackingSession::current_transform (lines 171-178). -/
def MouseTrackingSession.current_transform (M : FloatOps) :
    MouseTrackingSession → CameraTransform
  | MouseTrackingSession.orbit s => s.current_transform M
  | MouseTrackingSession.sidle s => s.current_transform

/-- Dropping a MouseTrackingSession drops the wrapped session. -/
def MouseTrackingSession.drop_events : MouseTrackingSession → List TeardownEvent
  | MouseTrackingSession.orbit s => s.drop_events
  | MouseTrackingSession.sidle s => s.drop_events

/-- camera_controller.rs ControllerData. -/
structure ControllerData where
  camera_transform : CameraTransform
  mouse_wheel_delta : ℚ
  mouse_tracking_session : Option MouseTrackingSession

/-- The wheel handler (lines 58-64): mouse_wheel_delta += delta_y. -/
def ControllerData.on_wheel (d : ControllerData) (delta_y : ℚ) : ControllerData :=
  { d with mouse_wheel_delta := d.mouse_wheel_delta + delta_y }

/-- The part of camera.rs Camera mutated by the controller. -/
@[ext]
structure Camera where
  position : Vec3
  orientation : Quat
deriving DecidableEq

/-- Camera::set_position. -/
def Camera.set_position (c : Camera) (p : Vec3) : Camera :=
  { c with position := p }

/-- Camera::set_orientation. -/
def Camera.set_orientation (c : Camera) (o : Quat) : Camera :=
  { c with orientation := o }

/-- ControllerData as built by CameraController::init (lines 27-35). -/
def ControllerData.init (c : Camera) : ControllerData :=
  { camera_transform :=
      { position := c.position, orientation := c.orientation, orbit_point := ⟨0, 0, 0⟩ },
    mouse_wheel_delta := 0,
    mouse_tracking_session := none }

/-- The local difference of update_camera (line 126). -/
def dolly_difference (d : ControllerData) : Vec3 :=
  d.camera_transform.orbit_point - d.camera_transform.position

/-- The local translation of update_camera (lines 127-129):
normalize difference * (mouse_wheel_delta / 1000). -/
def dolly_translation (M : FloatOps) (d : ControllerData) : Vec3 :=
  ((dolly_difference d).normalize M.sqrt).mul (d.mouse_wheel_delta / 1000)

/-- The guard of the dolly step (line 131). -/
def dolly_applies (M : FloatOps) (d : ControllerData) : Prop :=
  (dolly_translation M d).length M.sqrt < (dolly_difference d).length M.sqrt ∨
    d.mouse_wheel_delta < 0

instance (M : FloatOps) (d : ControllerData) : Decidable (dolly_applies M d) := by
  unfold dolly_applies
  infer_instance

/-- CameraController::update_camera (lines 116-141): returns the new
controller data together with the camera after set_position /
set_orientation. -/
def CameraController.update_camera (M : FloatOps) (d : ControllerData) (camera : Camera) :
    ControllerData × Camera :=
  let d2 :=
    match d.mouse_tracking_session with
    | some session => { d with camera_transform := session.current_transform M }
    | none =>
      let d1 :=
        if dolly_applies M d then
          { d with camera_transform :=
              { d.camera_transform with
                  position := d.camera_transform.position + dolly_translation M d } }
        else d
      { d1 with mouse_wheel_delta := 0 }
  (d2, (camera.set_position d2.camera_transform.position).set_orientation
        d2.camera_transform.orientation)

/-- A usize value cast with as u32 (getting wasm32 usize values back needs the
reduction only above 2^32). -/
def as_u32 (n : ℕ) : ℕ :=
  n % 4294967296

/-- A value cast with as u16. -/
def as_u16 (n : ℕ) : ℕ :=
  n % 65536

/-- wgpu-style indexed draw parameters recorded into a render bundle. -/
structure DrawIndexed where
  index_count : ℕ
  instance_count : ℕ
  first_index : ℕ
  base_vertex : ℕ
  first_instance : ℕ
deriving DecidableEq

/-- The static index buffer of BoundingRectsPass::init (line 66 of
bounding_rects_pass/mod.rs): [0, 1, 2, 3, 0]. -/
def BoundingRectsPass.indices : List ℕ :=
  [0, 1, 2, 3, 0]

/-- BoundingRectsPass::render_bundle (lines 76-111 of
bounding_rects_pass/mod.rs), as a function of the length of the dynamic
bounding-rect collection. -/
def BoundingRectsPass.render_bundle (bounding_rects_len : ℕ) : Option DrawIndexed :=
  if bounding_rects_len = 0 then none
  else
    some { index_count := as_u32 BoundingRectsPass.indices.length,
           instance_count := as_u32 bounding_rects_len,
           first_index := 0, base_vertex := 0, first_instance := 0 }

/-- The static index buffer of LongAxesPass::init (line 66 of
long_axes_pass/mod.rs): [0, 1]. -/
def LongAxesPass.indices : List ℕ :=
  [0, 1]

/-- LongAxesPass::render_bundle (lines 76-111 of long_axes_pass/mod.rs). -/
def LongAxesPass.render_bundle (long_axes_len : ℕ) : Option DrawIndexed :=
  if long_axes_len = 0 then none
  else
    some { index_count := as_u32 LongAxesPass.indices.length,
           instance_count := as_u32 long_axes_len,
           first_index := 0, base_vertex := 0, first_instance := 0 }

/-- SpheresPass::render_bundle (lines 93-138 of spheres_pass/mod.rs), as a
function of the length of the icosphere index buffer held in SphereData and
of the length of the dynamic sphere collection. -/
def SpheresPass.render_bundle (sphere_data_indices_len spheres_len : ℕ) : Option DrawIndexed :=
  if spheres_len = 0 then none
  else
    some { index_count := as_u32 sphere_data_indices_len,
           instance_count := as_u32 spheres_len,
           first_index := 0, base_vertex := 0, first_instance := 0 }

/-- The per-grid vertex data pushed by GridsPass::init (lines 122-145 of
grids_pass/mod.rs).  The parameter transform abstracts the f32 affine map
p maps-to transform * Vec4::new (p.1, p.2, 0, 1) built from the grid scale,
orientation and position; it is applied to every pushed lattice point, so
the pushed list is the image of the local 2D points the source pushes. -/
def grid_vertex_data {P : Type} (transform : ℚ × ℚ → P) (width height : ℕ) : List P :=
  let min_x : ℚ := (width : ℚ) / 2
  let min_y : ℚ := (height : ℚ) / 2
  [transform (-min_x, -min_y), transform (min_x, -min_y),
   transform (min_x, min_y), transform (-min_x, min_y)]
  ++ (List.range' 1 (width - 1)).flatMap
      (fun i => [transform ((i : ℚ) - min_x, -min_y), transform ((i : ℚ) - min_x, min_y)])
  ++ (List.range' 1 (height - 1)).flatMap
      (fun i => [transform (-min_x, (i : ℚ) - min_y), transform (min_x, (i : ℚ) - min_y)])

/-- The per-grid index data pushed by GridsPass::init (lines 147-172 of
grids_pass/mod.rs); index_offset is the running u16 offset, and the usize
loop counters are cast with as u16 before the u16 addition. -/
def grid_index_data (index_offset width height : ℕ) : List ℕ :=
  let offset := 4 + (width - 1) * 2
  [as_u16 (index_offset + 0), as_u16 (index_offset + 1),
   as_u16 (index_offset + 1), as_u16 (index_offset + 2),
   as_u16 (index_offset + 2), as_u16 (index_offset + 3),
   as_u16 (index_offset + 3), as_u16 (index_offset + 0)]
  ++ (List.range (width - 1)).flatMap
      (fun i => [as_u16 (index_offset + as_u16 (i * 2 + 4)),
                 as_u16 (index_offset + as_u16 (i * 2 + 5))])
  ++ (List.range (height - 1)).flatMap
      (fun i => [as_u16 (index_offset + as_u16 (i * 2 + offset)),
                 as_u16 (index_offset + as_u16 (i * 2 + offset + 1))])

/-- The index_count local of GridsPass::init (line 117), by which the running
u16 index_offset advances per grid. -/
def grid_index_count (width height : ℕ) : ℕ :=
  4 + (width + height) * 2

/-- The vertex_count local of GridsPass::init (line 116); it is only the
capacity reserved before pushing, not the number of vertices pushed. -/
def grid_vertex_reserve (width height : ℕ) : ℕ :=
  (width + 1) * (height + 1)

/-- The full loop of GridsPass::init over the configured grids, accumulating
vertex data, index data and the u16 index offset. -/
def grids_pass_build {P : Type} (grids : List ((ℚ × ℚ → P) × ℕ × ℕ)) :
    List P × List ℕ × ℕ :=
  grids.foldl
    (fun acc g =>
      (acc.1 ++ grid_vertex_data g.1 g.2.1 g.2.2,
       acc.2.1 ++ grid_index_data acc.2.2 g.2.1 g.2.2,
       as_u16 (acc.2.2 + as_u16 (grid_index_count g.2.1 g.2.2))))
    ([], [], 0)

/-- A concrete interpretation of the abstract float operations, used to
instantiate universally quantified theorems on concrete inputs. -/
def M0 : FloatOps :=
  { sin := fun q => q, cos := fun q => 1 - q, sqrt := fun q => q, pi := 355 / 113 }

/-- A concrete camera transform. -/
def t0 : CameraTransform :=
  { position := ⟨1, 2, 3⟩, orientation := ⟨0, 0, 0, 1⟩, orbit_point := ⟨0, 0, 0⟩ }

/-- A concrete camera. -/
def c0 : Camera :=
  { position := ⟨1, 2, 3⟩, orientation := ⟨0, 0, 0, 1⟩ }

/-- Concrete controller data with an active orbit session and a pending wheel
delta of 5. -/
def d5 : ControllerData :=
  { camera_transform := t0,
    mouse_wheel_delta := 5,
    mouse_tracking_session := some (MouseTrackingSession.orbit (OrbitSession.init t0)) }

/-- Concrete controller data with no active session and a wheel delta of -5;
the camera sits at distance 1 from the orbit point along the z axis. -/
def d3 : ControllerData :=
  { camera_transform :=
      { position := ⟨0, 0, 0⟩, orientation := ⟨0, 0, 0, 1⟩, orbit_point := ⟨0, 0, 1⟩ },
    mouse_wheel_delta := -5,
    mouse_tracking_session := none }

/-- Concrete controller data with no active session and wheel delta 0. -/
def d0 : ControllerData :=
  { camera_transform := t0, mouse_wheel_delta := 0, mouse_tracking_session := none }

@[simp]
lemma Vec3.add_components (a b : Vec3) : a + b = ⟨a.x + b.x, a.y + b.y, a.z + b.z⟩ :=
  rfl

@[simp]
lemma Vec3.sub_components (a b : Vec3) : a - b = ⟨a.x - b.x, a.y - b.y, a.z - b.z⟩ :=
  rfl

@[simp]
lemma IVec2.add_pair (a b : IVec2) : a + b = ⟨a.x + b.x, a.y + b.y⟩ :=
  rfl

lemma orbit_after_fields (t : CameraTransform) (moves : List IVec2) :
    (orbit_session_after t moves).orbit_point = t.orbit_point ∧
    (orbit_session_after t moves).initial_orientation = t.orientation ∧
    (orbit_session_after t moves).initial_relative_position = t.position - t.orbit_point := by
  have h : ∀ (ms : List IVec2) (s : OrbitSession),
      (ms.foldl OrbitSession.on_pointer_move s).orbit_point = s.orbit_point ∧
      (ms.foldl OrbitSession.on_pointer_move s).initial_orientation = s.initial_orientation ∧
      (ms.foldl OrbitSession.on_pointer_move s).initial_relative_position =
        s.initial_relative_position := by
    intro ms
    induction ms with
    | nil => exact fun s => ⟨rfl, rfl, rfl⟩
    | cons m ms ih => exact fun s => ih (s.on_pointer_move m)
  exact h moves (OrbitSession.init t)

lemma sidle_after_fields (t : CameraTransform) (moves : List IVec2) :
    (sidle_session_after t moves).orientation = t.orientation ∧
    (sidle_session_after t moves).initial_position = t.position ∧
    (sidle_session_after t moves).initial_orbit_point = t.orbit_point ∧
    (sidle_session_after t moves).up = t.up ∧
    (sidle_session_after t moves).right = t.right := by
  have h : ∀ (ms : List IVec2) (s : SidleSession),
      (ms.foldl SidleSession.on_pointer_move s).orientation = s.orientation ∧
      (ms.foldl SidleSession.on_pointer_move s).initial_position = s.initial_position ∧
      (ms.foldl SidleSession.on_pointer_move s).initial_orbit_point = s.initial_orbit_point ∧
      (ms.foldl SidleSession.on_pointer_move s).up = s.up ∧
      (ms.foldl SidleSession.on_pointer_move s).right = s.right := by
    intro ms
    induction ms with
    | nil => exact fun s => ⟨rfl, rfl, rfl, rfl, rfl⟩
    | cons m ms ih => exact fun s => ih (s.on_pointer_move m)
  exact h moves (SidleSession.init t)

/-- Claim C1: for every active orbit session with accumulated mouse movement
(dx, dy), current_transform returns the orientation tilt * pan *
initial_orientation, where pan rotates about the world up axis (0, 1, 0)
through -dx / 400 * pi and tilt rotates through -dy / 400 * pi about the
right vector obtained by applying pan * initial_orientation to (1, 0, 0);
the position is orbit_point + (tilt * pan) applied to
initial_relative_position, and the orbit point is the one snapshotted at
session initialization. -/
theorem orbit_current_transform_formula (M : FloatOps) (t : CameraTransform)
    (moves : List IVec2) :
    OrbitSession.current_transform M (orbit_session_after t moves) =
      { position := t.orbit_point +
          (Quat.mul
            (Quat.from_axis_angle M
              ((Quat.mul
                  (Quat.from_axis_angle M ⟨0, 1, 0⟩
                    (-((orbit_session_after t moves).tracker.movement.x : ℚ) / 400 * M.pi))
                  t.orientation).mul_vec3 ⟨1, 0, 0⟩)
              (-((orbit_session_after t moves).tracker.movement.y : ℚ) / 400 * M.pi))
            (Quat.from_axis_angle M ⟨0, 1, 0⟩
              (-((orbit_session_after t moves).tracker.movement.x : ℚ) / 400 * M.pi))).mul_vec3
            (t.position - t.orbit_point),
        orientation :=
          Quat.mul
            (Quat.mul
              (Quat.from_axis_angle M
                ((Quat.mul
                    (Quat.from_axis_angle M ⟨0, 1, 0⟩
                      (-((orbit_session_after t moves).tracker.movement.x : ℚ) / 400 * M.pi))
                    t.orientation).mul_vec3 ⟨1, 0, 0⟩)
                (-((orbit_session_after t moves).tracker.movement.y : ℚ) / 400 * M.pi))
              (Quat.from_axis_angle M ⟨0, 1, 0⟩
                (-((orbit_session_after t moves).tracker.movement.x : ℚ) / 400 * M.pi)))
            t.orientation,
        orbit_point := t.orbit_point } := by
  obtain ⟨h1, h2, h3⟩ := orbit_after_fields t moves
  simp only [OrbitSession.current_transform, h1, h2, h3]

/-- Claim C7: for every active sidle session with accumulated mouse movement
(dx, dy), current_transform translates both the initial position and the
initial orbit point by t = up * dy / 80 + right * (-dx) / 80, with up and
right the basis vectors captured at session start, leaves the orientation
unchanged, and that translation is orthogonal to the view direction at
session start. -/
theorem sidle_current_transform_formula (t : CameraTransform) (moves : List IVec2) :
    SidleSession.current_transform (sidle_session_after t moves) =
      { position := t.position +
          ((t.up.mul ((sidle_session_after t moves).tracker.movement.y : ℚ)).div 80 +
            (t.right.mul (-((sidle_session_after t moves).tracker.movement.x : ℚ))).div 80),
        orientation := t.orientation,
        orbit_point := t.orbit_point +
          ((t.up.mul ((sidle_session_after t moves).tracker.movement.y : ℚ)).div 80 +
            (t.right.mul (-((sidle_session_after t moves).tracker.movement.x : ℚ))).div 80) } ∧
    Vec3.dot
      ((t.up.mul ((sidle_session_after t moves).tracker.movement.y : ℚ)).div 80 +
        (t.right.mul (-((sidle_session_after t moves).tracker.movement.x : ℚ))).div 80)
      (t.orientation.mul_vec3 ⟨0, 0, -1⟩) = 0 := by
  obtain ⟨h1, h2, h3, h4, h5⟩ := sidle_after_fields t moves
  constructor
  · simp only [SidleSession.current_transform, h1, h2, h3, h4, h5]
  · simp only [CameraTransform.up, CameraTransform.right, Quat.mul_vec3, Vec3.dot, Vec3.cross,
      Vec3.mul, Vec3.div, Vec3.add_components]
    ring

/-- Claim C8: an orbit session whose tracker has accumulated movement exactly
(0, 0) reports a position and orientation equal, field by field, to the
transform snapshotted at session initialization (assuming only that the
abstract sin and cos agree with the exact values sin 0 = 0 and cos 0 = 1). -/
theorem orbit_zero_movement_identity (M : FloatOps) (t : CameraTransform)
    (hs : M.sin 0 = 0) (hc : M.cos 0 = 1) :
    (OrbitSession.current_transform M (OrbitSession.init t)).position = t.position ∧
    (OrbitSession.current_transform M (OrbitSession.init t)).orientation = t.orientation := by
  have hangle : ∀ axis : Vec3,
      Quat.from_axis_angle M axis (-((0 : ℤ) : ℚ) / 400 * M.pi) = ⟨0, 0, 0, 1⟩ := by
    intro axis
    have h0 : (-((0 : ℤ) : ℚ) / 400 * M.pi) / 2 = 0 := by norm_num
    simp [Quat.from_axis_angle, h0, hs, hc]
  constructor
  · show (OrbitSession.current_transform M (OrbitSession.init t)).position = t.position
    simp only [OrbitSession.current_transform, OrbitSession.init,
      MouseMovementTracker.pointer_locked, hangle]
    simp only [Quat.mul, Quat.mul_vec3, Vec3.dot, Vec3.cross, Vec3.mul, Vec3.add_components,
      Vec3.sub_components]
    ext <;> ring
  · show (OrbitSession.current_transform M (OrbitSession.init t)).orientation = t.orientation
    simp only [OrbitSession.current_transform, OrbitSession.init,
      MouseMovementTracker.pointer_locked, hangle]
    simp only [Quat.mul]
    ext <;> ring

/-- Claim C8 witness: concrete instantiation at M0 and t0. -/
theorem orbit_zero_movement_identity_witness :
    (M0.sin 0 = 0 ∧ M0.cos 0 = 1) ∧
    (OrbitSession.current_transform M0 (OrbitSession.init t0)).position = t0.position ∧
    (OrbitSession.current_transform M0 (OrbitSession.init t0)).orientation = t0.orientation :=
  ⟨⟨by norm_num [M0], by norm_num [M0]⟩,
    orbit_zero_movement_identity M0 t0 (by norm_num [M0]) (by norm_num [M0])⟩

/-- Claim C9: while a session is active, update_camera recomputes the
transform from the fixed session snapshot: running update_camera a second
time on its own output, with no intervening pointer input, produces the same
camera and the same internal transform. -/
theorem update_camera_idempotent_during_session (M : FloatOps) (d : ControllerData)
    (c : Camera) (h : d.mouse_tracking_session.isSome = true) :
    (CameraController.update_camera M
        (CameraController.update_camera M d c).1
        (CameraController.update_camera M d c).2).2 =
      (CameraController.update_camera M d c).2 ∧
    (CameraController.update_camera M
        (CameraController.update_camera M d c).1
        (CameraController.update_camera M d c).2).1.camera_transform =
      (CameraController.update_camera M d c).1.camera_transform := by
  obtain ⟨s, hs⟩ := Option.isSome_iff_exists.mp h
  constructor
  · simp [CameraController.update_camera, hs, Camera.set_position, Camera.set_orientation]
  · simp [CameraController.update_camera, hs]

/-- Claim C9 witness: concrete instantiation at M0, d5 and c0. -/
theorem update_camera_idempotent_during_session_witness :
    d5.mouse_tracking_session.isSome = true ∧
    (CameraController.update_camera M0
        (CameraController.update_camera M0 d5 c0).1
        (CameraController.update_camera M0 d5 c0).2).2 =
      (CameraController.update_camera M0 d5 c0).2 :=
  ⟨rfl, (update_camera_idempotent_during_session M0 d5 c0 rfl).1⟩

/-- Claim C2 counterexample: with an active orbit session and a pending wheel
delta of 5, update_camera does not reset the wheel delta (the reset at line
135 sits in the no-session branch only). -/
theorem wheel_delta_not_always_reset_cex :
    (CameraController.update_camera M0 d5 c0).1.mouse_wheel_delta ≠ 0 := by
  simp [CameraController.update_camera, d5]

/-- Claim C2 amended: after update_camera the accumulated wheel delta is zero
whenever no session was active (whether or not the dolly guard accepted the
translation); when a session is active the wheel delta is left untouched. -/
theorem wheel_delta_reset_iff_no_session (M : FloatOps) (d : ControllerData) (c : Camera) :
    (d.mouse_tracking_session = none →
      (CameraController.update_camera M d c).1.mouse_wheel_delta = 0) ∧
    (∀ s, d.mouse_tracking_session = some s →
      (CameraController.update_camera M d c).1.mouse_wheel_delta = d.mouse_wheel_delta) := by
  constructor
  · intro h
    simp [CameraController.update_camera, h]
  · intro s h
    simp [CameraController.update_camera, h]

/-- Claim C2 amended witness: concrete instantiation at M0, d0 and c0. -/
theorem wheel_delta_reset_iff_no_session_witness :
    d0.mouse_tracking_session = none ∧
    (CameraController.update_camera M0 d0 c0).1.mouse_wheel_delta = 0 :=
  ⟨rfl, (wheel_delta_reset_iff_no_session M0 d0 c0).1 rfl⟩

lemma update_camera_position_no_session (M : FloatOps) (d : ControllerData) (c : Camera)
    (h : d.mouse_tracking_session = none) :
    (CameraController.update_camera M d c).1.camera_transform.position =
      if dolly_applies M d then d.camera_transform.position + dolly_translation M d
      else d.camera_transform.position := by
  simp only [CameraController.update_camera, h]
  split <;> rfl

/-- Claim C3: with no session active, update_camera computes the dolly
translation along the normalized direction from camera position toward the
orbit point scaled by mouse_wheel_delta / 1000, and adds it to the position
exactly when the translation length is strictly below the distance to the
orbit point or the wheel delta is negative; in particular a positive wheel
delta whose translation length is not below the distance leaves the position
unchanged, while a negative wheel delta is always applied. -/
theorem dolly_clamp_spec (M : FloatOps) (d : ControllerData) (c : Camera)
    (h : d.mouse_tracking_session = none) :
    ((dolly_translation M d).length M.sqrt < (dolly_difference d).length M.sqrt ∨
        d.mouse_wheel_delta < 0 →
      (CameraController.update_camera M d c).1.camera_transform.position =
        d.camera_transform.position + dolly_translation M d) ∧
    (¬ ((dolly_translation M d).length M.sqrt < (dolly_difference d).length M.sqrt ∨
        d.mouse_wheel_delta < 0) →
      (CameraController.update_camera M d c).1.camera_transform.position =
        d.camera_transform.position) ∧
    (0 < d.mouse_wheel_delta →
      ¬ (dolly_translation M d).length M.sqrt < (dolly_difference d).length M.sqrt →
      (CameraController.update_camera M d c).1.camera_transform.position =
        d.camera_transform.position) ∧
    (d.mouse_wheel_delta < 0 →
      (CameraController.update_camera M d c).1.camera_transform.position =
        d.camera_transform.position + dolly_translation M d) := by
  have hu := update_camera_position_no_session M d c h
  simp only [dolly_applies] at hu
  refine ⟨?_, ?_, ?_, ?_⟩
  · intro hg
    rw [hu, if_pos hg]
  · intro hg
    rw [hu, if_neg hg]
  · intro hpos hlen
    have hg : ¬ ((dolly_translation M d).length M.sqrt < (dolly_difference d).length M.sqrt ∨
        d.mouse_wheel_delta < 0) := by
      intro hg
      rcases hg with hg | hg
      · exact hlen hg
      · exact absurd hpos (not_lt.mpr (le_of_lt hg))
    rw [hu, if_neg hg]
  · intro hneg
    rw [hu, if_pos (Or.inr hneg)]

/-- Claim C3 witness: concrete instantiation at M0, d3 (negative wheel delta)
and c0. -/
theorem dolly_clamp_spec_witness :
    d3.mouse_tracking_session = none ∧ d3.mouse_wheel_delta < 0 ∧
    (CameraController.update_camera M0 d3 c0).1.camera_transform.position =
      d3.camera_transform.position + dolly_translation M0 d3 :=
  ⟨rfl, by norm_num [d3], (dolly_clamp_spec M0 d3 c0 rfl).2.2.2 (by norm_num [d3])⟩

/-- Claim C10: with no active session and wheel delta exactly zero,
update_camera leaves the internal camera transform unchanged and writes the
unchanged position and orientation to the camera; when moreover the position
coincides with the orbit point, the clamp guard rejects the translation. -/
theorem update_camera_no_input_no_change (M : FloatOps) (d : ControllerData) (c : Camera)
    (h : d.mouse_tracking_session = none) (hw : d.mouse_wheel_delta = 0) :
    (CameraController.update_camera M d c).1.camera_transform = d.camera_transform ∧
    (CameraController.update_camera M d c).2.position = d.camera_transform.position ∧
    (CameraController.update_camera M d c).2.orientation = d.camera_transform.orientation ∧
    (d.camera_transform.position = d.camera_transform.orbit_point → ¬ dolly_applies M d) := by
  have ht : dolly_translation M d = ⟨0, 0, 0⟩ := by
    simp [dolly_translation, Vec3.mul, hw]
  have hct : (CameraController.update_camera M d c).1.camera_transform =
      d.camera_transform := by
    have hp := update_camera_position_no_session M d c h
    rw [ht] at hp
    have hpos : (CameraController.update_camera M d c).1.camera_transform.position =
        d.camera_transform.position := by
      rw [hp]
      split <;> ext <;> simp
    have hrest : (CameraController.update_camera M d c).1.camera_transform.orientation =
        d.camera_transform.orientation ∧
        (CameraController.update_camera M d c).1.camera_transform.orbit_point =
          d.camera_transform.orbit_point := by
      simp only [CameraController.update_camera, h]
      split <;> exact ⟨rfl, rfl⟩
    ext <;> simp [hpos, hrest.1, hrest.2]
  refine ⟨hct, ?_, ?_, ?_⟩
  · show (CameraController.update_camera M d c).1.camera_transform.position = _
    rw [hct]
  · show (CameraController.update_camera M d c).1.camera_transform.orientation = _
    rw [hct]
  · intro hdeg
    intro hap
    rcases hap with hap | hap
    · rw [ht] at hap
      have hdiff : dolly_difference d = ⟨0, 0, 0⟩ := by
        simp [dolly_difference, hdeg]
      rw [hdiff] at hap
      exact absurd hap (lt_irrefl _)
    · rw [hw] at hap
      exact absurd hap (lt_irrefl 0)

/-- Claim C10 witness: concrete instantiation at M0, d0 and c0. -/
theorem update_camera_no_input_no_change_witness :
    (d0.mouse_tracking_session = none ∧ d0.mouse_wheel_delta = 0) ∧
    (CameraController.update_camera M0 d0 c0).1.camera_transform = d0.camera_transform :=
  ⟨⟨rfl, rfl⟩, (update_camera_no_input_no_change M0 d0 c0 rfl rfl).1⟩

lemma length_flatMap_pairs {α β : Type} (l : List α) (f g : α → β) :
    (l.flatMap fun i => [f i, g i]).length = 2 * l.length := by
  induction l with
  | nil => rfl
  | cons a l ih =>
    simp only [List.flatMap_cons, List.length_append, List.length_cons, List.length_nil, ih]
    omega

/-- Claim C4 counterexample: a grid with 20 by 20 cells receives 80 pushed
vertices, not (20 + 1) * (20 + 1) = 441 (that product is only the reserved
capacity). -/
theorem grid_vertex_count_cex :
    (grid_vertex_data (fun p => p) 20 20).length ≠ (20 + 1) * (20 + 1) := by
  decide

/-- Claim C4 amended: for cell counts width, height at least 1, grid bundle
construction pushes exactly 2 * (width + height) vertices (4 corners plus
2 * (width - 1) plus 2 * (height - 1) edge vertices; the reserve capacity
(width + 1) * (height + 1) is never reached for width or height above 1) and
exactly 4 + 2 * (width + height) index entries; width = height = 1 gives 4
vertices and 8 index entries, width = height = 20 gives 80 vertices and 84
index entries. -/
theorem grid_counts_amended {P : Type} (transform : ℚ × ℚ → P)
    (index_offset width height : ℕ) (hw : 1 ≤ width) (hh : 1 ≤ height) :
    (grid_vertex_data transform width height).length = 2 * (width + height) ∧
    (grid_index_data index_offset width height).length = 4 + 2 * (width + height) := by
  constructor
  · simp only [grid_vertex_data, List.length_append, length_flatMap_pairs,
      List.length_range', List.length_cons, List.length_nil]
    omega
  · simp only [grid_index_data, List.length_append, length_flatMap_pairs,
      List.length_range, List.length_cons, List.length_nil]
    omega

/-- Claim C4 amended witness: concrete instantiation at width = height = 20. -/
theorem grid_counts_amended_witness :
    (1 ≤ 20 ∧ 1 ≤ 20) ∧
    ((grid_vertex_data (fun p => p) 20 20).length = 2 * (20 + 20) ∧
      (grid_index_data 0 20 20).length = 4 + 2 * (20 + 20)) :=
  ⟨⟨by norm_num, by norm_num⟩,
    grid_counts_amended (fun p => p) 0 20 20 (by norm_num) (by norm_num)⟩

/-- Claim C5 counterexample: tearing down an orbit session releases the
exclusive pointer capture twice, not exactly once: the Drop impl of
OrbitSession calls exit_pointer_lock and then the Drop impl of its
pointer-locked MouseMovementTracker calls it again. -/
theorem orbit_teardown_release_twice_cex :
    release_count (MouseTrackingSession.orbit (OrbitSession.init t0)).drop_events ≠ 1 := by
  decide

/-- Claim C5 amended: on every teardown of an interaction session the pointer
capture is released at least once and the pointer-move subscription is
cancelled, but the release count is 2 for orbit sessions (session Drop plus
tracker Drop) and 1 for sidle sessions (tracker Drop only). -/
theorem teardown_release_counts (t : CameraTransform) :
    release_count (MouseTrackingSession.orbit (OrbitSession.init t)).drop_events = 2 ∧
    release_count (MouseTrackingSession.sidle (SidleSession.init t)).drop_events = 1 ∧
    TeardownEvent.abort_subscription ∈
      (MouseTrackingSession.orbit (OrbitSession.init t)).drop_events ∧
    TeardownEvent.abort_subscription ∈
      (MouseTrackingSession.sidle (SidleSession.init t)).drop_events := by
  refine ⟨rfl, rfl, ?_, ?_⟩ <;>
    simp [MouseTrackingSession.drop_events, OrbitSession.drop_events, SidleSession.drop_events,
      MouseMovementTracker.drop_events, OrbitSession.init, SidleSession.init,
      MouseMovementTracker.pointer_locked]

/-- Claim C6: each of the three dynamic-instance render passes returns no
bundle exactly when the input collection is empty, and for a nonempty
collection of length n returns a bundle whose declared instance count is n
(n below 2^32, the usize range of the wasm32 target). -/
theorem render_bundle_instance_counts (n m : ℕ) (hn : n < 4294967296) :
    ((BoundingRectsPass.render_bundle n = none ↔ n = 0) ∧
      (1 ≤ n →
        Option.map DrawIndexed.instance_count (BoundingRectsPass.render_bundle n) = some n)) ∧
    ((LongAxesPass.render_bundle n = none ↔ n = 0) ∧
      (1 ≤ n →
        Option.map DrawIndexed.instance_count (LongAxesPass.render_bundle n) = some n)) ∧
    ((SpheresPass.render_bundle m n = none ↔ n = 0) ∧
      (1 ≤ n →
        Option.map DrawIndexed.instance_count (SpheresPass.render_bundle m n) = some n)) := by
  have hmod : as_u32 n = n := Nat.mod_eq_of_lt hn
  refine ⟨⟨?_, ?_⟩, ⟨?_, ?_⟩, ⟨?_, ?_⟩⟩ <;>
    simp only [BoundingRectsPass.render_bundle, LongAxesPass.render_bundle,
      SpheresPass.render_bundle]
  · split <;> simp_all
  · intro h1
    rw [if_neg (by omega)]
    simp [hmod]
  · split <;> simp_all
  · intro h1
    rw [if_neg (by omega)]
    simp [hmod]
  · split <;> simp_all
  · intro h1
    rw [if_neg (by omega)]
    simp [hmod]

/-- Claim C6 witness: concrete instantiation at n = 3. -/
theorem render_bundle_instance_counts_witness :
    (3 < 4294967296 ∧ 1 ≤ 3) ∧
    Option.map DrawIndexed.instance_count (BoundingRectsPass.render_bundle 3) = some 3 ∧
    Option.map DrawIndexed.instance_count (LongAxesPass.render_bundle 3) = some 3 ∧
    Option.map DrawIndexed.instance_count (SpheresPass.render_bundle 240 3) = some 3 :=
  ⟨⟨by norm_num, by norm_num⟩,
    (render_bundle_instance_counts 3 240 (by norm_num)).1.2 (by norm_num),
    (render_bundle_instance_counts 3 240 (by norm_num)).2.1.2 (by norm_num),
    (render_bundle_instance_counts 3 240 (by norm_num)).2.2.2 (by norm_num)⟩

end Sbx
